import Mathlib

/-!
Shallow embedding of the hermes demo frontend and data-preparation scripts,
with theorems checking the specification's claims against the code.

Sources embedded (paths relative to the repository root):
* `demo/hermes-maps/src/routes/vehicle-routing/input.ts` — problem DTO types
* `demo/hermes-maps/src/routes/vehicle-routing/solution.ts` — solution DTO types
* `demo/hermes-maps/src/routes/vehicle-routing/colors.ts` — `VRP_COLORS`
* `demo/hermes-maps/src/routes/job/colors.ts` — `ROUTE_COLORS`, `getRouteColor`
* `demo/hermes-maps/src/routes/vehicle-routing/geojson.ts` — GeoJSON transforms
* `demo/hermes-maps/src/routes/job/usePollRouting.ts` — query refetch interval
* `demo/hermes-maps/src/routes/vehicle-routing/usePollRouting.ts` — effect polling
* `demo/hermes-maps/src/routes/vehicle-routing/useStopRouting.ts`,
  `demo/hermes-maps/src/routes/home.tsx` (`useStartRouting`) — lifecycle calls
* `data/optimizer/transform.js` — data-preparation script

Coordinates (latitudes/longitudes) are opaque to every function embedded here:
they are copied, never computed with, so they are carried as `Int` values.
-/

namespace Hermes

/-! ### Problem DTO types (vehicle-routing/input.ts) -/

/-- Type `Location` from input.ts: `coordinates: [number, number]`. -/
structure Location where
  coordinates : Int × Int
deriving Repr, DecidableEq

/-- Type `TimeWindow` from input.ts (`end` renamed to `stop`: Lean keyword). -/
structure TimeWindow where
  start : Option String := none
  stop : Option String := none
deriving Repr, DecidableEq

/-- Type `ServiceType` from input.ts. -/
inductive ServiceType where
  | pickup
  | delivery
deriving Repr, DecidableEq

/-- Type `Service` from input.ts. -/
structure Service where
  demand : Option (List Int) := none
  duration : Option String := none
  id : String
  location_id : Nat
  skills : Option (List String) := none
  time_windows : Option (List TimeWindow) := none
  type : Option ServiceType := none
deriving Repr, DecidableEq

/-- Type `VehicleShift` from input.ts. -/
structure VehicleShift where
  earliest_start : Option String := none
  latest_end : Option String := none
  latest_start : Option String := none
  maximum_transport_duration : Option String := none
  maximum_working_duration : Option String := none
deriving Repr, DecidableEq

/-- Type `Vehicle` from input.ts. `depot_location_id: number | null` becomes
`Option Int`. -/
structure Vehicle where
  capacity : Option (List Int) := none
  depot_duration : Option String := none
  depot_location_id : Option Int := none
  id : String := ""
  maximum_activities : Option Nat := none
  profile : String := ""
  return_depot_duration : Option String := none
  shift : Option VehicleShift := none
  should_return_to_depot : Option Bool := none
  skills : Option (List String) := none
deriving Repr, DecidableEq

/-- Type `VehicleProfile` from input.ts; the `cost_provider` union is carried as its
`type` discriminant only, since no embedded function reads its config. -/
structure VehicleProfile where
  cost_provider_type : String := ""
  id : String := ""
deriving Repr, DecidableEq

/-- Type `VehicleRoutingProblem` from input.ts. -/
structure VehicleRoutingProblem where
  id : Option String := none
  locations : List Location
  services : List Service
  vehicle_profiles : List VehicleProfile := []
  vehicles : List Vehicle
deriving Repr, DecidableEq

/-! ### Solution DTO types (vehicle-routing/solution.ts) -/

/-- The discriminant of the `Activity` union in solution.ts. -/
inductive ActivityType where
  | Start
  | End
  | Service
deriving Repr, DecidableEq

/-- One member of the `Activity` union in solution.ts. The repository carries
two shapes for service activities: solution.ts declares `service_id: number`,
while geojson.ts reads `activity.id` (a string service identifier) on
activities filtered to `type === 'Service'`; both fields are carried, absent
ones as `none` (reading an absent field in JS yields `undefined`). -/
structure Activity where
  type : ActivityType
  id : Option String := none
  service_id : Option Nat := none
  arrival_time : String := ""
  departure_time : String := ""
  waiting_duration : Option String := none
deriving Repr, DecidableEq

/-- The `score` object of the solution. -/
structure Score where
  soft_score : Int := 0
  hard_score : Int := 0
deriving Repr, DecidableEq

/-- The `polyline` of a route: a GeoJSON LineString feature, carried as its
coordinate list (nothing embedded here reads inside it). -/
structure LineStringFeature where
  coordinates : List (Int × Int) := []
deriving Repr, DecidableEq

/-- One element of `solution.routes` in solution.ts. -/
structure Route where
  distance : Int := 0
  vehicle_max_load : Int := 0
  duration : String := ""
  transport_duration : String := ""
  total_demand : List Int := []
  waiting_duration : String := ""
  vehicle_id : Nat := 0
  activities : List Activity
  polyline : LineStringFeature := {}
deriving Repr, DecidableEq

/-- Type `Solution` from solution.ts. -/
structure Solution where
  score : Score := {}
  duration : String := ""
  routes : List Route
deriving Repr, DecidableEq

/-- Job status strings `'Pending' | 'Running' | 'Completed'`. -/
inductive JobStatus where
  | Pending
  | Running
  | Completed
deriving Repr, DecidableEq

/-- Type `SolutionResponse` from vehicle-routing/usePollRouting.ts:
`{ status, solution: ... | null }`. -/
structure SolutionResponse where
  status : JobStatus
  solution : Option Solution := none
deriving Repr, DecidableEq

/-- Function `isNil` from utils/isNil.ts: true exactly on `null`/`undefined`. -/
def isNil {α : Type} (x : Option α) : Bool :=
  x.isNone

/-! ### Color palettes -/

/-- The `VRP_COLORS` palette from vehicle-routing/colors.ts (20 entries). -/
def VRP_COLORS : List String :=
  ["#a6cee3", "#1f78b4", "#b2df8a", "#33a02c", "#fb9a99", "#e31a1c",
   "#fdbf6f", "#ff7f00", "#cab2d6", "#6a3d9a", "#ffff99", "#b15928",
   "#8B4513", "#556B2F", "#CD5C5C", "#4682B4", "#7B68EE", "#2E8B57",
   "#8A2BE2", "#FF8C00"]

/-- The `ROUTE_COLORS` palette from job/colors.ts (21 entries). -/
def ROUTE_COLORS : List String :=
  ["#f59e0b", "#ea580c", "#4d7c0f", "#0f766e", "#1e3a8a", "#10b981",
   "#93c5fd", "#7e22ce", "#a21caf", "#be185d", "#b91c1c", "#bef264",
   "#a78bfa", "#fcd34d", "#fca5a5", "#365314", "#7f1d1d", "#134e4a",
   "#0c4a6e", "#4c1d95", "#881337"]

/-- Function `getRouteColor` from job/colors.ts:
`ROUTE_COLORS[index % ROUTE_COLORS.length]`. JS array indexing can yield
`undefined`, hence the `Option` result. -/
def getRouteColor (index : Nat) : Option String :=
  ROUTE_COLORS[index % ROUTE_COLORS.length]?

/-! ### GeoJSON transforms (vehicle-routing/geojson.ts) -/

/-- Properties of one solution point feature built by
`transformSolutionToGeoJson`: `routeId`, `activityId` and `color`. The color
is the result of a JS array index and can be `undefined`, hence `Option`. -/
structure SolutionPointProperties where
  routeId : String
  activityId : String
  color : Option String
deriving Repr, DecidableEq

/-- One point feature of the solution feature collection (`type: 'Feature'`,
`geometry.type: 'Point'` are fixed by the construction). -/
structure SolutionPointFeature where
  geometry : Int × Int
  properties : SolutionPointProperties
deriving Repr, DecidableEq

/-- The `points` FeatureCollection returned by `transformSolutionToGeoJson`. -/
structure SolutionFeatureCollection where
  features : List SolutionPointFeature
deriving Repr, DecidableEq

/-- The inner closure `getLocationForServiceId` of `transformSolutionToGeoJson`
in geojson.ts:
`problem.services.find(s => s.id === serviceId)!` followed by
`problem.locations[service.location_id].coordinates`. The non-null assertion
and the unchecked index are fallible, hence the `Option` result; the
`serviceId` argument is `Option` because the caller passes `activity.id`,
which JS leaves `undefined` when absent (and `s.id === undefined` never
holds for a string `s.id`). -/
def getLocationForServiceId (problem : VehicleRoutingProblem)
    (serviceId : Option String) : Option (Int × Int) := do
  let service ← problem.services.find? fun s => some s.id == serviceId
  let location ← problem.locations[service.location_id]?
  pure (location.coordinates.1, location.coordinates.2)

/-- Function `transformSolutionToGeoJson` from geojson.ts: for each route, filter its
activities to `type === 'Service'`, and map each (with its index in the
filtered list) to a point feature located at the service's location, with
`routeId = routeIndex.toString()`, `activityId = (index + 1).toString()` and
`color = VRP_COLORS[routeIndex % solution.routes.length]`. A failed service
or location lookup is a crash in the source, hence `Option`. -/
def transformSolutionToGeoJson (problem : VehicleRoutingProblem)
    (solution : Solution) : Option SolutionFeatureCollection := do
  let perRoute ← solution.routes.enum.mapM fun (routeIndex, route) =>
    (route.activities.filter fun a => a.type == ActivityType.Service).enum.mapM
      fun (index, activity) => do
        let coordinates ← getLocationForServiceId problem activity.id
        pure { geometry := coordinates
               properties :=
                { routeId := toString routeIndex
                  activityId := toString (index + 1)
                  color := VRP_COLORS[routeIndex % solution.routes.length]? }
               : SolutionPointFeature }
  pure { features := perRoute.flatten }

/-- Properties of one problem point feature built by `getGeoJSONFromProblem`:
`locationId` and `color` (always a string in the source). -/
structure ProblemPointProperties where
  locationId : String
  color : String
deriving Repr, DecidableEq

/-- One point feature of the problem feature collection. -/
structure ProblemPointFeature where
  geometry : Int × Int
  properties : ProblemPointProperties
deriving Repr, DecidableEq

/-- The `points` FeatureCollection returned by `getGeoJSONFromProblem`. -/
structure ProblemFeatureCollection where
  features : List ProblemPointFeature
deriving Repr, DecidableEq

/-- Function `getGeoJSONFromProblem` from geojson.ts: the vehicles' non-nil
`depot_location_id`s are collected, then each location (with its index)
becomes a point feature with `locationId = (index + 1).toString()` and color
`'black'` when the index is a depot location id, `'#475569'` otherwise. -/
def getGeoJSONFromProblem (problem : VehicleRoutingProblem) :
    ProblemFeatureCollection :=
  let depotLocationIds : List Int :=
    ((problem.vehicles.map fun v => v.depot_location_id).filter
      fun id => !(isNil id)).filterMap id
  { features := problem.locations.enum.map fun (index, location) =>
      { geometry := location.coordinates
        properties :=
          { locationId := toString (index + 1)
            color := if depotLocationIds.contains (index : Int)
                     then "black" else "#475569" } } }

/-! ### Polling policy (job/usePollRouting.ts and
vehicle-routing/usePollRouting.ts) -/

/-- The `refetchInterval` callback of `usePollJob` in job/usePollRouting.ts.
Its input is `query.state.data?.data.status` (absent when no poll response has
arrived yet); `some n` means "poll again after n milliseconds", `none` embeds
the source's literal `false` ("stop polling"). Source:
`if (isPending) return 2000; return isCompleted ? false : 600`. -/
def refetchInterval (lastStatus : Option JobStatus) : Option Nat :=
  let isCompleted := lastStatus == some JobStatus.Completed
  let isPending := lastStatus == some JobStatus.Pending
  if isPending then some 2000
  else if isCompleted then none else some 600

/-- The scheduling decision of the effect in
vehicle-routing/usePollRouting.ts: the effect returns early (no interval is
installed, so no further poll is issued) when
`isCompleted || isNil(jobId)`, and otherwise installs
`setInterval(run, 1000)`. -/
def vrpPollInterval (lastStatus : Option JobStatus)
    (jobId : Option String) : Option Nat :=
  let isCompleted := lastStatus == some JobStatus.Completed
  if isCompleted || isNil jobId then none else some 1000

/-- The component-local state the vehicle-routing `usePollRouting` hook
holds: `useState<SolutionResponse | null>` and `useState<string | null>`. -/
structure PollHookState where
  solution : Option SolutionResponse
  error : Option String
deriving Repr, DecidableEq

/-- The outcome of one `fetch` inside `run`: either an HTTP response (status
plus the JSON body it would parse to), or a thrown error (network failure or
a body that fails to parse), which the `catch` block receives. -/
inductive FetchOutcome where
  | response (status : Nat) (body : SolutionResponse)
  | thrown (message : String)
deriving Repr, DecidableEq

/-- One execution of `run` in vehicle-routing/usePollRouting.ts as a state
transition: on `status >= 400` it calls `setError` and returns; on success it
calls `setSolution(data)`; a thrown error only reaches `console.error`, which
touches no component state. -/
def run (state : PollHookState) : FetchOutcome → PollHookState
  | FetchOutcome.response status body =>
      if 400 ≤ status then
        { state with error := some ("Failed " ++ toString status) }
      else
        { state with solution := some body }
  | FetchOutcome.thrown _ => state

/-! ### Job lifecycle calls (useStopRouting.ts, useStartRouting in home.tsx
of the job screen) -/

/-- The callback returned by `useStopRouting`: given the HTTP status of the
`POST /vrp/jobs/{id}/stop` response, throw
`Failed to stop routing job ${jobId}: ${status}` when `status >= 400`,
otherwise return `true`. -/
def useStopRouting (jobId : String) (status : Nat) : Except String Bool :=
  if 400 ≤ status then
    Except.error ("Failed to stop routing job " ++ jobId ++ ": " ++
      toString status)
  else
    Except.ok true

/-- The callback returned by `useStartRouting`: given the HTTP status of the
`POST /vrp/jobs/{id}/start` response, throw
`Failed to start routing job ${jobId}: ${status}` when `status >= 400`,
otherwise return `true`. -/
def useStartRouting (jobId : String) (status : Nat) : Except String Bool :=
  if 400 ≤ status then
    Except.error ("Failed to start routing job " ++ jobId ++ ": " ++
      toString status)
  else
    Except.ok true

/-! ### Poll-response accessors (solution helpers using the generated
`PollResponse` schema) -/

/-- Modelled from the spec: the generated `ApiSolution` schema is not in the
repository; per the spec the solution is "a set of vehicle routes, each a
sequence of activities", which the repository's own `Solution` DTO mirrors. -/
abbrev ApiSolution := Solution

/-- One strategy/weight entry, as read by `WeightsPanel`. -/
structure OperatorWeight where
  strategy : String
  weight : Int
deriving Repr, DecidableEq

/-- An `AlnsWeights`-shaped value: a `weights` list, as read by `WeightsPanel`. -/
structure AlnsWeights where
  weights : List OperatorWeight
deriving Repr, DecidableEq

/-- Type `OperatorWeights` with `ruin` and `recreate` weight sets, as read by
`WeightsPanel`. -/
structure OperatorWeights where
  ruin : AlnsWeights
  recreate : AlnsWeights
deriving Repr, DecidableEq

/-- Modelled from the spec: the generated `AggregatedStatistics` schema is not
in the repository; the accessors only pass it through, so it is carried as an
opaque labelled payload. -/
structure AggregatedStatistics where
  payload : List (String × Int) := []
deriving Repr, DecidableEq

/-- Modelled from the spec: `GET /vrp/jobs/:id/poll` returns
`{status: Pending|Running|Completed, solution?, statistics?, weights?}`
(generated `PollResponse` schema, not in the repository). -/
structure PollResponse where
  status : JobStatus
  solution : Option ApiSolution := none
  statistics : Option AggregatedStatistics := none
  weights : Option OperatorWeights := none
deriving Repr, DecidableEq

/-- Function `getSolution` from the job screen's solution helpers: `null` on a nil
response or a `Pending` status, `response.solution ?? null` on `Running` or
`Completed`. -/
def getSolution (response : Option PollResponse) : Option ApiSolution :=
  if isNil response then none
  else
    match response with
    | none => none
    | some r =>
      match r.status with
      | JobStatus.Pending => none
      | JobStatus.Running => r.solution
      | JobStatus.Completed => r.solution

/-- Function `getStatistics`: same shape as `getSolution`, reading `statistics`. -/
def getStatistics (response : Option PollResponse) :
    Option AggregatedStatistics :=
  if isNil response then none
  else
    match response with
    | none => none
    | some r =>
      match r.status with
      | JobStatus.Pending => none
      | JobStatus.Running => r.statistics
      | JobStatus.Completed => r.statistics

/-- Function `getOperatorWeights`: same shape as `getSolution`, reading `weights`. -/
def getOperatorWeights (response : Option PollResponse) :
    Option OperatorWeights :=
  if isNil response then none
  else
    match response with
    | none => none
    | some r =>
      match r.status with
      | JobStatus.Pending => none
      | JobStatus.Running => r.weights
      | JobStatus.Completed => r.weights

/-! ### Point-to-point routing screen (home.tsx) -/

/-- The `RoutingAlgorithm` enum of home.tsx (five members). -/
inductive RoutingAlgorithm where
  | Dijkstra
  | Astar
  | BidirectionalAstar
  | Landmarks
  | ContractionHierarchies
deriving Repr, DecidableEq

/-- The string value of each enum member (TS string enum). -/
def RoutingAlgorithm.value : RoutingAlgorithm → String
  | RoutingAlgorithm.Dijkstra => "Dijkstra"
  | RoutingAlgorithm.Astar => "Astar"
  | RoutingAlgorithm.BidirectionalAstar => "BidirectionalAstar"
  | RoutingAlgorithm.Landmarks => "Landmarks"
  | RoutingAlgorithm.ContractionHierarchies => "ContractionHierarchies"

/-- List `Object.values(RoutingAlgorithm)`, the list the screen renders one radio
button per entry of; `selectedAlgorithm` starts at `Dijkstra` and is only ever
set from these radio values, and `computeRoute` puts it in the POST body. -/
def routingAlgorithmValues : List RoutingAlgorithm :=
  [RoutingAlgorithm.Dijkstra, RoutingAlgorithm.Astar,
   RoutingAlgorithm.BidirectionalAstar, RoutingAlgorithm.Landmarks,
   RoutingAlgorithm.ContractionHierarchies]

/-- The `algorithm` strings a `POST /route` body from this screen can carry:
the values of the rendered radio buttons. -/
def submittableAlgorithms : List String :=
  routingAlgorithmValues.map RoutingAlgorithm.value

/-! ### Data-preparation script (data/optimizer/transform.js) -/

/-- A `{latitude, longitude}` pair from the input fixture. -/
structure InGeoLocation where
  latitude : Int
  longitude : Int
deriving Repr, DecidableEq

/-- The `shift` object of an input vehicle. -/
structure InShift where
  earliestStartTime : String := ""
  latestEndTime : String := ""
  maximumShiftDuration : Nat := 0
  maximumTransportDuration : Nat := 0
deriving Repr, DecidableEq

/-- An input vehicle of the fixture, as the script reads it. -/
structure InVehicle where
  warehouse : InGeoLocation
  capacity : List Int := []
  warehouseDuration : Nat := 0
  warehouseReturnDuration : Nat := 0
  shouldReturnToWarehouse : Bool := true
  shift : InShift := {}
deriving Repr, DecidableEq

/-- An input time window (`end` renamed to `stop`: Lean keyword). -/
structure InTimeWindow where
  start : String
  stop : String
deriving Repr, DecidableEq

/-- An input service of the fixture, as the script reads it. -/
structure InService where
  id : String
  location : InGeoLocation
  duration : Nat := 0
  demand : List Int := []
  timeWindows : List InTimeWindow := []
deriving Repr, DecidableEq

/-- The fixture (`sample-2.json`) fields the script reads. -/
structure OptimizerInput where
  vehicles : List InVehicle
  services : List InService
deriving Repr, DecidableEq

/-- Function `transformDuration` from transform.js: `` `PT${seconds}S` ``. -/
def transformDuration (seconds : Nat) : String :=
  "PT" ++ toString seconds ++ "S"

/-- One entry of the script's `locations` output array. -/
structure OutLocation where
  id : Nat
  lat : Int
  lon : Int
deriving Repr, DecidableEq

/-- The `shift` object of an output vehicle. -/
structure OutShift where
  earliest_start : String
  latest_end : String
  maximum_working_duration : String
  maximum_transport_duration : String
deriving Repr, DecidableEq

/-- One entry of the script's `vehicles` output array. -/
structure OutVehicle where
  external_id : String
  capacity : List Int
  depot_location_id : Nat
  depot_duration : String
  end_depot_duration : String
  should_return_to_depot : Bool
  shift : OutShift
deriving Repr, DecidableEq

/-- An output time window (`end` renamed to `stop`: Lean keyword). -/
structure OutTimeWindow where
  start : String
  stop : String
deriving Repr, DecidableEq

/-- One entry of the script's `services` output array. -/
structure OutService where
  external_id : String
  service_duration : String
  demand : List Int
  time_windows : List OutTimeWindow
  location_id : Nat
deriving Repr, DecidableEq

/-- The object the script writes to `output.json`. -/
structure OptimizerOutput where
  locations : List OutLocation
  vehicles : List OutVehicle
  services : List OutService
deriving Repr, DecidableEq

/-- The body of transform.js, producing the `output.json` object:
`vehicle_location = data.vehicles[0].warehouse` (a crash when there is no
vehicle, hence `Option`); `locations` is that warehouse at id 0 followed by
one entry per service at id `index + 1`; every vehicle gets
`depot_location_id: 0`; each service gets `location_id: index + 1`; every
duration field goes through `transformDuration`. -/
def transformOptimizerData (data : OptimizerInput) : Option OptimizerOutput := do
  let firstVehicle ← data.vehicles[0]?
  let vehicle_location := firstVehicle.warehouse
  let locations : List OutLocation :=
    { id := 0
      lat := vehicle_location.latitude
      lon := vehicle_location.longitude } ::
    (data.services.enum.map fun (index, service) =>
      { id := index + 1
        lat := service.location.latitude
        lon := service.location.longitude })
  let vehicles : List OutVehicle :=
    data.vehicles.enum.map fun (index, vehicle) =>
      { external_id := toString index
        capacity := vehicle.capacity
        depot_location_id := 0
        depot_duration := transformDuration vehicle.warehouseDuration
        end_depot_duration := transformDuration vehicle.warehouseReturnDuration
        should_return_to_depot := vehicle.shouldReturnToWarehouse
        shift :=
          { earliest_start := vehicle.shift.earliestStartTime
            latest_end := vehicle.shift.latestEndTime
            maximum_working_duration :=
              transformDuration vehicle.shift.maximumShiftDuration
            maximum_transport_duration :=
              transformDuration vehicle.shift.maximumTransportDuration } }
  let services : List OutService :=
    data.services.enum.map fun (index, service) =>
      { external_id := service.id
        service_duration := transformDuration service.duration
        demand := service.demand
        time_windows := service.timeWindows.map fun tw =>
          { start := tw.start, stop := tw.stop }
        location_id := index + 1 }
  pure { locations := locations, vehicles := vehicles, services := services }

/-! ### Explicit-state embedding of the GeoJSON transforms

The transforms receive their arguments by reference; to state that they never
write through those references, the mutable environment (the problem and
solution objects the caller shares with the callee) is made an explicit state
threaded through the call. Every operation the source performs on it
(`find`, indexing, `map`, `filter`, `flatMap`, `includes`) is a read, so each
step returns the state it received. -/

/-- The caller-owned environment: the two argument objects. -/
structure GeoEnv where
  problem : VehicleRoutingProblem
  solution : Solution
deriving Repr, DecidableEq

/-- A computation over the shared environment: result plus resulting state. -/
def GeoRead (α : Type) : Type := GeoEnv → α × GeoEnv

/-- Read the `problem` argument. -/
def readProblem : GeoRead VehicleRoutingProblem := fun env => (env.problem, env)

/-- Read the `solution` argument. -/
def readSolution : GeoRead Solution := fun env => (env.solution, env)

/-- Sequence two environment computations. -/
def GeoRead.bind {α β : Type} (m : GeoRead α) (f : α → GeoRead β) :
    GeoRead β := fun env =>
  let (a, env') := m env
  f a env'

/-- Return a value without touching the environment. -/
def GeoRead.pure {α : Type} (a : α) : GeoRead α := fun env => (a, env)

/-- Function `transformSolutionToGeoJson` as a stateful call: it reads the two shared
argument objects and builds a fresh result from what it read; no step writes
the environment. -/
def transformSolutionToGeoJsonCall :
    GeoRead (Option SolutionFeatureCollection) :=
  GeoRead.bind readProblem fun problem =>
    GeoRead.bind readSolution fun solution =>
      GeoRead.pure (transformSolutionToGeoJson problem solution)

/-- Function `getGeoJSONFromProblem` as a stateful call on the shared environment. -/
def getGeoJSONFromProblemCall : GeoRead ProblemFeatureCollection :=
  GeoRead.bind readProblem fun problem =>
    GeoRead.pure (getGeoJSONFromProblem problem)

/-! ## Concrete inputs for the failing-input evaluation of the solution
transform (one service at the only location; twenty-one routes each visiting
it once) -/

/-- A problem with one location and one service pointing at it. -/
def sampleProblem21 : VehicleRoutingProblem :=
  { locations := [{ coordinates := (0, 0) }]
    services := [{ id := "s", location_id := 0 }]
    vehicles := [] }

/-- A solution with 21 routes, each containing one `Service` activity for the
service `"s"`. -/
def sampleSolution21 : Solution :=
  { routes := List.replicate 21
      { activities := [{ type := ActivityType.Service, id := some "s" }] } }

/-! ## Theorems -/

/-- C8: `getRouteColor` is total on natural route indices and periodic in the
palette size: for every `n`, `getRouteColor n` is an element of the 21-entry
`ROUTE_COLORS` list (never `undefined`), equals `ROUTE_COLORS[n % 21]`, and
`getRouteColor (n + 21) = getRouteColor n`. -/
theorem getRouteColor_total_mod_periodic (n : Nat) :
    ROUTE_COLORS.length = 21 ∧
    (∃ c, getRouteColor n = some c ∧ c ∈ ROUTE_COLORS) ∧
    getRouteColor n = ROUTE_COLORS[n % 21]? ∧
    getRouteColor (n + 21) = getRouteColor n := by
  have hlen : ROUTE_COLORS.length = 21 := rfl
  have hmod : n % ROUTE_COLORS.length < ROUTE_COLORS.length := by
    rw [hlen]; exact Nat.mod_lt _ (by norm_num)
  refine ⟨rfl, ⟨ROUTE_COLORS[n % ROUTE_COLORS.length], ?_, ?_⟩, ?_, ?_⟩
  · exact List.getElem?_eq_getElem hmod
  · exact List.getElem_mem hmod
  · rfl
  · show ROUTE_COLORS[(n + 21) % ROUTE_COLORS.length]? =
      ROUTE_COLORS[n % ROUTE_COLORS.length]?
    rw [hlen, Nat.add_mod_right]

/-- C3 counterexample: `ContractionHierarchies` is a submittable algorithm
value of the point-to-point routing screen, and it is not among the four
selectors the claim allows. -/
theorem contractionHierarchies_submittable :
    "ContractionHierarchies" ∈ submittableAlgorithms ∧
    "ContractionHierarchies" ∉
      (["Dijkstra", "Astar", "BidirectionalAstar", "Landmarks"] :
        List String) := by
  constructor
  · show "ContractionHierarchies" ∈ routingAlgorithmValues.map
      RoutingAlgorithm.value
    decide
  · decide

/-- C3 amended: every algorithm value the point-to-point routing screen can
include in a `POST /route` body is one of exactly the five selectors
`Dijkstra`, `Astar`, `BidirectionalAstar`, `Landmarks`,
`ContractionHierarchies`. -/
theorem submittableAlgorithms_eq_five :
    submittableAlgorithms =
      ["Dijkstra", "Astar", "BidirectionalAstar", "Landmarks",
       "ContractionHierarchies"] := by
  rfl

/-- C2: the job-status refetch interval is 2000ms on a `Pending` response,
600ms on `Running` or when no response has arrived, and `false` (no further
poll) once the response is `Completed`; the vehicle-routing variant schedules
a 1000ms interval in every non-terminal state with a job id, and schedules
nothing once `Completed`. -/
theorem pollingIntervalPolicy :
    refetchInterval (some JobStatus.Pending) = some 2000 ∧
    refetchInterval (some JobStatus.Running) = some 600 ∧
    refetchInterval none = some 600 ∧
    refetchInterval (some JobStatus.Completed) = none ∧
    (∀ jobId : Option String,
      vrpPollInterval (some JobStatus.Completed) jobId = none) ∧
    (∀ (jobId : String) (lastStatus : Option JobStatus),
      lastStatus ≠ some JobStatus.Completed →
      vrpPollInterval lastStatus (some jobId) = some 1000) := by
  refine ⟨rfl, rfl, rfl, rfl, fun jobId => rfl, ?_⟩
  intro jobId lastStatus h
  match lastStatus with
  | none => rfl
  | some JobStatus.Pending => rfl
  | some JobStatus.Running => rfl
  | some JobStatus.Completed => exact absurd rfl h

/-- Witness for C2 at a concrete non-terminal state. -/
theorem pollingIntervalPolicy_witness :
    vrpPollInterval (some JobStatus.Running) (some "job-1") = some 1000 :=
  pollingIntervalPolicy.2.2.2.2.2 "job-1" (some JobStatus.Running) (by decide)

/-- C4: the job lifecycle callbacks throw exactly when the HTTP response
status is at least 400, and return `true` otherwise, for both
`useStopRouting` and `useStartRouting`. -/
theorem lifecycle_throws_iff_status_ge_400 (jobId : String) (status : Nat) :
    ((∃ e, useStopRouting jobId status = Except.error e) ↔ 400 ≤ status) ∧
    ((∃ e, useStartRouting jobId status = Except.error e) ↔ 400 ≤ status) ∧
    (status < 400 →
      useStopRouting jobId status = Except.ok true ∧
      useStartRouting jobId status = Except.ok true) := by
  by_cases h : 400 ≤ status
  · refine ⟨⟨fun _ => h, ?_⟩, ⟨fun _ => h, ?_⟩, ?_⟩
    · exact fun _ =>
        ⟨"Failed to stop routing job " ++ jobId ++ ": " ++ toString status,
          by simp [useStopRouting, h]⟩
    · exact fun _ =>
        ⟨"Failed to start routing job " ++ jobId ++ ": " ++ toString status,
          by simp [useStartRouting, h]⟩
    · intro hlt; exact absurd h (Nat.not_le.mpr hlt)
  · refine ⟨⟨?_, fun hge => absurd hge h⟩, ⟨?_, fun hge => absurd hge h⟩, ?_⟩
    · rintro ⟨e, he⟩
      simp [useStopRouting, h] at he
    · rintro ⟨e, he⟩
      simp [useStartRouting, h] at he
    · intro _
      constructor <;> simp [useStopRouting, useStartRouting, h]

/-- Witness for C4 at a concrete successful status. -/
theorem lifecycle_throws_iff_status_ge_400_witness :
    useStopRouting "job-1" 200 = Except.ok true ∧
    useStartRouting "job-1" 200 = Except.ok true :=
  (lifecycle_throws_iff_status_ge_400 "job-1" 200).2.2 (by norm_num)

/-- C5: on a failed poll (`status >= 400`) the `run` transition leaves the
stored solution unchanged and sets only the error message; on a thrown fetch
error it leaves the whole hook state unchanged. -/
theorem run_error_preserves_solution (state : PollHookState) :
    (∀ (status : Nat) (body : SolutionResponse), 400 ≤ status →
      (run state (FetchOutcome.response status body)).solution =
        state.solution ∧
      (run state (FetchOutcome.response status body)).error =
        some ("Failed " ++ toString status)) ∧
    (∀ message, run state (FetchOutcome.thrown message) = state) := by
  refine ⟨?_, fun message => rfl⟩
  intro status body h
  constructor <;> simp [run, h]

/-- Witness for C5 at a concrete prior state and a concrete 500 response. -/
theorem run_error_preserves_solution_witness :
    (run { solution := some { status := JobStatus.Running }, error := none } (FetchOutcome.response 500 { status := JobStatus.Completed })).solution = some { status := JobStatus.Running } :=
  ((run_error_preserves_solution { solution := some { status := JobStatus.Running }, error := none }).1 500 { status := JobStatus.Completed } (by norm_num)).1

/-- C6: the poll-response accessors return `null` on a nil response or a
`Pending` status, and return the response's `solution` / `statistics` /
`weights` field on `Running` or `Completed`. -/
theorem pollAccessors_spec (response : Option PollResponse) :
    (response = none →
      getSolution response = none ∧ getStatistics response = none ∧
      getOperatorWeights response = none) ∧
    (∀ r, response = some r → r.status = JobStatus.Pending →
      getSolution response = none ∧ getStatistics response = none ∧
      getOperatorWeights response = none) ∧
    (∀ r, response = some r →
      (r.status = JobStatus.Running ∨ r.status = JobStatus.Completed) →
      getSolution response = r.solution ∧
      getStatistics response = r.statistics ∧
      getOperatorWeights response = r.weights) := by
  refine ⟨?_, ?_, ?_⟩
  · rintro rfl
    exact ⟨rfl, rfl, rfl⟩
  · rintro r rfl hst
    simp [getSolution, getStatistics, getOperatorWeights, isNil, hst]
  · rintro r rfl hst
    rcases hst with hst | hst <;>
      simp [getSolution, getStatistics, getOperatorWeights, isNil, hst]

/-- Witness for C6 at a concrete completed response carrying a solution. -/
theorem pollAccessors_spec_witness :
    getSolution (some { status := JobStatus.Completed, solution := some { routes := [] } }) = some { routes := [] } :=
  ((pollAccessors_spec _).2.2 _ rfl (Or.inr rfl)).1

/-- C7: the GeoJSON transforms only read their arguments: run as calls on the
caller-shared environment, both leave that environment exactly as received,
and their results are functions of the values read from it. -/
theorem geojson_transforms_pure (env : GeoEnv) :
    (transformSolutionToGeoJsonCall env).2 = env ∧
    (transformSolutionToGeoJsonCall env).1 =
      transformSolutionToGeoJson env.problem env.solution ∧
    (getGeoJSONFromProblemCall env).2 = env ∧
    (getGeoJSONFromProblemCall env).1 = getGeoJSONFromProblem env.problem :=
  ⟨rfl, rfl, rfl, rfl⟩

/-- C1: evaluation at the failing input. On a solution with 21 routes (one
`Service` activity each), the transform yields 21 point features, the first
twenty carry a color, but the feature of route index 20 has `routeId = "20"`
and **no** color: `VRP_COLORS[routeIndex % solution.routes.length]` is
`VRP_COLORS[20]` on a 20-entry palette, i.e. `undefined` — the modulo is by
the route count (a no-op, as `routeIndex < routes.length` always) instead of
the palette length. -/
theorem transformSolutionToGeoJson_color_undefined_21_routes :
    (transformSolutionToGeoJson sampleProblem21 sampleSolution21).map
        (fun fc =>
          (fc.features.length,
           (fc.features.take 20).all fun f => (f.properties.color).isSome,
           (fc.features[20]?).map fun f =>
             (f.properties.routeId, f.properties.color))) =
      some (21, true, some ("20", none)) := by
  decide

/-- Membership in the depot-id list built by `getGeoJSONFromProblem` is
existence of a vehicle with that `depot_location_id`. -/
theorem depot_ids_mem (p : VehicleRoutingProblem) (j : Int) :
    ((((p.vehicles.map fun v => v.depot_location_id).filter
        fun x => !(isNil x)).filterMap id).contains j = true) ↔
      ∃ v ∈ p.vehicles, v.depot_location_id = some j := by
  rw [List.elem_iff]
  constructor
  · intro hj
    obtain ⟨o, ho, hoj⟩ := List.mem_filterMap.mp hj
    obtain ⟨homem, -⟩ := List.mem_filter.mp ho
    obtain ⟨v, hv, hvo⟩ := List.mem_map.mp homem
    refine ⟨v, hv, ?_⟩
    rw [hvo]
    exact hoj
  · rintro ⟨v, hv, hvd⟩
    refine List.mem_filterMap.mpr ⟨some j, ?_, rfl⟩
    refine List.mem_filter.mpr ⟨List.mem_map.mpr ⟨v, hv, hvd⟩, ?_⟩
    simp [isNil]

/-- C9: `getGeoJSONFromProblem` returns one point feature per location, in
location order; feature `i` sits at location `i`'s coordinates, carries
`locationId = (i+1).toString()`, and is colored `'black'` exactly when some
vehicle's `depot_location_id` equals `i` (`'#475569'` otherwise). -/
theorem getGeoJSONFromProblem_spec (p : VehicleRoutingProblem) :
    (getGeoJSONFromProblem p).features.length = p.locations.length ∧
    ∀ i, i < p.locations.length →
      ∃ f loc, (getGeoJSONFromProblem p).features[i]? = some f ∧
        p.locations[i]? = some loc ∧
        f.geometry = loc.coordinates ∧
        f.properties.locationId = toString (i + 1) ∧
        (f.properties.color = "black" ↔
          ∃ v ∈ p.vehicles, v.depot_location_id = some (i : Int)) ∧
        (f.properties.color = "black" ∨ f.properties.color = "#475569") := by
  constructor
  · show (p.locations.enum.map _).length = _
    rw [List.length_map, List.enum_length]
  · intro i hi
    have hloc : p.locations[i]? = some p.locations[i] :=
      List.getElem?_eq_getElem hi
    have hfeat : (getGeoJSONFromProblem p).features[i]? =
        some { geometry := p.locations[i].coordinates
               properties :=
                { locationId := toString (i + 1)
                  color :=
                    if (((p.vehicles.map fun v => v.depot_location_id).filter
                          fun x => !(isNil x)).filterMap id).contains (i : Int)
                    then "black" else "#475569" } } := by
      show (p.locations.enum.map _)[i]? = _
      rw [List.getElem?_map, List.getElem?_enum, hloc]
      rfl
    by_cases hc : (((p.vehicles.map fun v => v.depot_location_id).filter
        fun x => !(isNil x)).filterMap id).contains (i : Int) = true
    · rw [if_pos hc] at hfeat
      refine ⟨_, p.locations[i], hfeat, hloc, rfl, rfl, ?_, Or.inl rfl⟩
      exact ⟨fun _ => (depot_ids_mem p i).mp hc, fun _ => rfl⟩
    · rw [if_neg hc] at hfeat
      refine ⟨_, p.locations[i], hfeat, hloc, rfl, rfl, ?_, Or.inr rfl⟩
      constructor
      · intro h
        have hbad : ("#475569" : String) = "black" := h
        exact absurd hbad (by decide)
      · intro hex
        exact absurd ((depot_ids_mem p i).mpr hex) hc

/-- Witness for C9 at a concrete two-location problem whose single vehicle is
stationed at location 0. -/
theorem getGeoJSONFromProblem_spec_witness :
    ∃ f loc,
      (getGeoJSONFromProblem { locations := [{ coordinates := (1, 2) }, { coordinates := (3, 4) }], services := [], vehicles := [{ depot_location_id := some 0 }] }).features[0]? = some f ∧
      ({ locations := [{ coordinates := (1, 2) }, { coordinates := (3, 4) }], services := [], vehicles := [{ depot_location_id := some 0 }] } : VehicleRoutingProblem).locations[0]? = some loc ∧
      f.geometry = loc.coordinates ∧
      f.properties.locationId = toString (0 + 1) ∧
      (f.properties.color = "black" ↔
        ∃ v ∈ ({ locations := [{ coordinates := (1, 2) }, { coordinates := (3, 4) }], services := [], vehicles := [{ depot_location_id := some 0 }] } : VehicleRoutingProblem).vehicles,
          v.depot_location_id = some ((0 : Nat) : Int)) ∧
      (f.properties.color = "black" ∨ f.properties.color = "#475569") :=
  (getGeoJSONFromProblem_spec _).2 0 (by decide)

/-- Indexing into a mapped enumeration of a list. -/
theorem map_enum_getElem? {α β : Type} (f : Nat × α → β) (l : List α)
    (i : Nat) (x : α) (hx : l[i]? = some x) :
    (l.enum.map f)[i]? = some (f (i, x)) := by
  rw [List.getElem?_map, List.getElem?_enum, hx]
  rfl

/-- Indexing past a head element into a mapped enumeration. -/
theorem cons_map_enum_getElem? {α β : Type} (a : β) (f : Nat × α → β)
    (l : List α) (i : Nat) (x : α) (hx : l[i]? = some x) :
    (a :: l.enum.map f)[i + 1]? = some (f (i, x)) := by
  rw [List.getElem?_cons_succ]
  exact map_enum_getElem? f l i x hx

/-- C10: for a fixture with S services and a first vehicle, the script's
output has S+1 locations — the first vehicle's warehouse at id 0, service i's
coordinates at id i+1 — service i's `location_id` is i+1, every output
vehicle's `depot_location_id` is 0, and every duration field is the string
`"PT" ++ seconds ++ "S"`. -/
theorem transformOptimizerData_spec (data : OptimizerInput) (v0 : InVehicle)
    (hv : data.vehicles[0]? = some v0) :
    ∃ out : OptimizerOutput, transformOptimizerData data = some out ∧
      out.locations.length = data.services.length + 1 ∧
      out.locations[0]? =
        some { id := 0, lat := v0.warehouse.latitude,
               lon := v0.warehouse.longitude } ∧
      (∀ (i : Nat) (s : InService), data.services[i]? = some s →
        out.locations[i + 1]? =
          some { id := i + 1, lat := s.location.latitude,
                 lon := s.location.longitude } ∧
        ∃ os : OutService, out.services[i]? = some os ∧
          os.location_id = i + 1 ∧
          os.service_duration = "PT" ++ toString s.duration ++ "S") ∧
      (∀ ov ∈ out.vehicles, ov.depot_location_id = 0) ∧
      (∀ (i : Nat) (v : InVehicle), data.vehicles[i]? = some v →
        ∃ ov : OutVehicle, out.vehicles[i]? = some ov ∧
          ov.depot_duration = "PT" ++ toString v.warehouseDuration ++ "S" ∧
          ov.end_depot_duration =
            "PT" ++ toString v.warehouseReturnDuration ++ "S" ∧
          ov.shift.maximum_working_duration =
            "PT" ++ toString v.shift.maximumShiftDuration ++ "S" ∧
          ov.shift.maximum_transport_duration =
            "PT" ++ toString v.shift.maximumTransportDuration ++ "S") := by
  unfold transformOptimizerData
  rw [hv]
  refine ⟨_, rfl, ?_, ?_, ?_, ?_, ?_⟩
  · show ((List.map _ data.services.enum).length + 1) = _
    rw [List.length_map, List.enum_length]
  · exact List.getElem?_cons_zero
  · intro i s hs
    exact ⟨cons_map_enum_getElem? _ _ _ _ _ hs,
      _, map_enum_getElem? _ _ _ _ hs, rfl, rfl⟩
  · intro ov hov
    obtain ⟨⟨idx, v⟩, -, rfl⟩ := List.mem_map.mp hov
    rfl
  · intro i v hvi
    exact ⟨_, map_enum_getElem? _ _ _ _ hvi, rfl, rfl, rfl, rfl⟩

/-- Witness for C10 at a one-vehicle, one-service fixture. -/
theorem transformOptimizerData_spec_witness :
    ∃ out,
      transformOptimizerData { vehicles := [{ warehouse := { latitude := 10, longitude := 20 }, warehouseDuration := 5 }], services := [{ id := "a", location := { latitude := 1, longitude := 2 }, duration := 30 }] } = some out ∧
      out.locations.length = 2 ∧
      out.locations[0]? = some { id := 0, lat := 10, lon := 20 } ∧
      out.locations[1]? = some { id := 1, lat := 1, lon := 2 } ∧
      (∃ os, out.services[0]? = some os ∧ os.location_id = 1 ∧
        os.service_duration = "PT30S") ∧
      (∀ ov ∈ out.vehicles, ov.depot_location_id = 0) ∧
      (∃ ov, out.vehicles[0]? = some ov ∧ ov.depot_duration = "PT5S") := by
  obtain ⟨out, hout, hlen, hloc0, hsvc, hveh, hvehdur⟩ :=
    transformOptimizerData_spec
      { vehicles := [{ warehouse := { latitude := 10, longitude := 20 }, warehouseDuration := 5 }], services := [{ id := "a", location := { latitude := 1, longitude := 2 }, duration := 30 }] }
      { warehouse := { latitude := 10, longitude := 20 },
        warehouseDuration := 5 }
      rfl
  obtain ⟨hloc1, os, hos, hosid, hosdur⟩ := hsvc 0 _ rfl
  obtain ⟨ov, hov, hovdur, -⟩ := hvehdur 0 _ rfl
  exact ⟨out, hout, hlen, hloc0, hloc1, ⟨os, hos, hosid, hosdur⟩, hveh,
    ov, hov, hovdur⟩

end Hermes
